import Mathlib

/-!
Verification development for the credit-metered asynchronous generation
pipeline of the novelapp repository.

The definitions below are a shallow embedding of the Python source:

* `predictions.py` — the cost estimator (prediction and reconciliation
  paths for metadata, story arcs, chapter summaries, chapter guide,
  chapter content, and images).  Python's `round` (banker's rounding) is
  modelled by `pyRound`/`pyRound2` over exact rationals; token counting
  (`count_tokens`, an external tokenizer) is passed in as a number.
* `api/generation.py` — the per-user generation lock and the dispatch
  endpoints (`api_generate_*`).
* `tasks.py` — the celery worker tasks (`generate_*_task`); each worker's
  collaborator outcomes (LLM call raising, output failing to parse, a
  later step raising) are enumerated by an explicit outcome type, and the
  Python `try/except/finally` structure is mirrored directly.
* `helpers.py` — credit bookkeeping (`can_spend_credits`,
  `spend_credits`) and the `is_last_generation_and_negative_creds` guard.
-/

namespace NovelApp

/-! ## Python-style rounding over exact rationals

`round` in Python rounds half to even (banker's rounding); `round(x, 2)`
rounds to two decimal places the same way. -/

/-- Product of two rationals, computed through `mkRat` so that concrete
values reduce inside `decide` (the library's `Rat.mul` is irreducible). -/
def qmul (a b : ℚ) : ℚ :=
  mkRat (a.num * b.num) (a.den * b.den)

/-- Quotient of two rationals, computed through `mkRat`; division by zero
yields zero (the claims never exercise that case). -/
def qdiv (a b : ℚ) : ℚ :=
  if b.num < 0 then mkRat (-(a.num * (b.den : ℤ))) (a.den * b.num.natAbs)
  else mkRat (a.num * (b.den : ℤ)) (a.den * b.num.natAbs)

/-- Difference of two rationals, computed through `mkRat`. -/
def qsub (a b : ℚ) : ℚ :=
  mkRat (a.num * (b.den : ℤ) - b.num * (a.den : ℤ)) (a.den * b.den)

/-- Floor of a rational, computed on the normalized numerator and
denominator so that concrete values reduce inside `decide`. -/
def ratFloor (x : ℚ) : ℤ :=
  Int.fdiv x.num (x.den : ℤ)

/-- Python `round(x)`: nearest integer, ties to even. -/
def pyRound (x : ℚ) : ℤ :=
  let f : ℤ := ratFloor x
  let r : ℚ := qsub x (f : ℚ)
  if r < mkRat 1 2 then f
  else if mkRat 1 2 < r then f + 1
  else if f % 2 = 0 then f else f + 1

/-- Python `round(x, 2)`: nearest multiple of 1/100, ties to even. -/
def pyRound2 (x : ℚ) : ℚ :=
  qdiv (pyRound (qmul x 100) : ℚ) 100

/-! ## Pricing configuration and credit modifiers

`TokenCostConfig` (models/TokenCostConfig.py) holds the dollar prices;
`CreditConfig` rows (models/CreditConfig.py) are an association of action
names to modifiers, looked up with the hard-coded fallback 2
(`config.modifier if config else 2` throughout predictions.py). -/

structure TokenCostConfig where
  cost_per_credit : ℚ
  cost_per_1m_input : ℚ
  cost_per_1m_output : ℚ
  o1_cost_per_credit : ℚ
  o1_cost_per_1m_input : ℚ
  o1_cost_per_1m_output : ℚ
  dall_e_price_per_image : ℚ
deriving Repr, DecidableEq

/-- The `CreditConfig` table: one `(action, modifier)` row per action. -/
def ModifierTable := List (String × ℚ)

/-- `CreditConfig.query.filter_by(action=a).first()`. -/
def lookupModifier (mods : ModifierTable) (action : String) : Option ℚ :=
  (List.find? (fun r => r.1 == action) mods).map (fun r => r.2)

/-- `config.modifier if config else 2`: the fallback-2 modifier lookup. -/
def modifierFor (mods : ModifierTable) (action : String) : ℚ :=
  match lookupModifier mods action with
  | some m => m
  | none => 2

/-! ## Cost estimator results -/

/-- Result dictionary of the `calculate_predicted_*_cost` functions. -/
structure PredictedCost where
  input_tokens : ℤ
  predicted_output_tokens : ℤ
  input_tokens_per_credit : ℚ
  output_tokens_per_credit : ℚ
  base_credit_cost_input : ℤ
  modified_credit_cost_input : ℤ
  base_credit_cost_output : ℤ
  modified_credit_cost_output : ℤ
  total_predicted_credit_cost : ℤ
deriving Repr, DecidableEq

/-- Result dictionary of the `calculate_actual_*_cost` functions. -/
structure ActualCost where
  input_tokens : ℤ
  output_tokens : ℤ
  model : String
  input_tokens_per_credit : ℚ
  output_tokens_per_credit : ℚ
  base_credit_cost_input : ℤ
  modified_credit_cost_input : ℤ
  base_credit_cost_output : ℤ
  modified_credit_cost_output : ℤ
  total_actual_credit_cost : ℤ
deriving Repr, DecidableEq

/-- Result dictionary of `calculate_image_cost`. -/
structure ImageCost where
  base_credit_cost : ℚ
  modifier : ℚ
  total_credit_cost : ℚ
deriving Repr, DecidableEq

/-! ## The estimator functions (predictions.py)

Each function mirrors its Python counterpart line by line.  The input
token count is the result of `count_tokens` on the rendered prompt (an
external tokenizer), so it is taken as an argument; likewise the output
token count on the reconciliation paths. -/

/-- `calculate_image_cost` (predictions.py): dollar price per image times
the `image` modifier, fallback 2, no rounding. -/
def calculate_image_cost (cfg : TokenCostConfig) (mods : ModifierTable) : ImageCost :=
  let base_credit_cost := cfg.dall_e_price_per_image
  let modifier := modifierFor mods "image"
  let total_credit_cost := qmul base_credit_cost modifier
  { base_credit_cost := base_credit_cost
    modifier := modifier
    total_credit_cost := total_credit_cost }

/-- `calculate_predicted_meta_cost` (predictions.py): gpt-4o-mini tier,
fixed 200 predicted output tokens, `max(1, round(...))` floors on both
base costs, `meta_input`/`meta_output` modifiers. -/
def calculate_predicted_meta_cost (cfg : TokenCostConfig) (mods : ModifierTable)
    (input_token_count : ℤ) : PredictedCost :=
  let input_tokens_per_credit := pyRound2 (qdiv (qmul cfg.cost_per_credit 1000000) cfg.cost_per_1m_input)
  let output_tokens_per_credit := pyRound2 (qdiv (qmul cfg.cost_per_credit 1000000) cfg.cost_per_1m_output)
  let base_credit_cost_input := max 1 (pyRound (qdiv (input_token_count : ℚ) input_tokens_per_credit))
  let predicted_output_tokens : ℤ := 200
  let base_credit_cost_output := max 1 (pyRound (qdiv (predicted_output_tokens : ℚ) output_tokens_per_credit))
  let modifier_input := modifierFor mods "meta_input"
  let modifier_output := modifierFor mods "meta_output"
  let modified_credit_cost_input := pyRound (qmul (base_credit_cost_input : ℚ) modifier_input)
  let modified_credit_cost_output := pyRound (qmul (base_credit_cost_output : ℚ) modifier_output)
  { input_tokens := input_token_count
    predicted_output_tokens := predicted_output_tokens
    input_tokens_per_credit := input_tokens_per_credit
    output_tokens_per_credit := output_tokens_per_credit
    base_credit_cost_input := base_credit_cost_input
    modified_credit_cost_input := modified_credit_cost_input
    base_credit_cost_output := base_credit_cost_output
    modified_credit_cost_output := modified_credit_cost_output
    total_predicted_credit_cost := modified_credit_cost_input + modified_credit_cost_output }

/-- `calculate_actual_meta_cost` (predictions.py): same arithmetic as the
meta prediction, measured output tokens, `max(1, ...)` floors kept. -/
def calculate_actual_meta_cost (cfg : TokenCostConfig) (mods : ModifierTable)
    (input_token_count output_token_count : ℤ) : ActualCost :=
  let input_tokens_per_credit := pyRound2 (qdiv (qmul cfg.cost_per_credit 1000000) cfg.cost_per_1m_input)
  let output_tokens_per_credit := pyRound2 (qdiv (qmul cfg.cost_per_credit 1000000) cfg.cost_per_1m_output)
  let base_credit_cost_input := max 1 (pyRound (qdiv (input_token_count : ℚ) input_tokens_per_credit))
  let base_credit_cost_output := max 1 (pyRound (qdiv (output_token_count : ℚ) output_tokens_per_credit))
  let modifier_input := modifierFor mods "meta_input"
  let modifier_output := modifierFor mods "meta_output"
  let modified_credit_cost_input := pyRound (qmul (base_credit_cost_input : ℚ) modifier_input)
  let modified_credit_cost_output := pyRound (qmul (base_credit_cost_output : ℚ) modifier_output)
  { input_tokens := input_token_count
    output_tokens := output_token_count
    model := "gpt-4o-mini"
    input_tokens_per_credit := input_tokens_per_credit
    output_tokens_per_credit := output_tokens_per_credit
    base_credit_cost_input := base_credit_cost_input
    modified_credit_cost_input := modified_credit_cost_input
    base_credit_cost_output := base_credit_cost_output
    modified_credit_cost_output := modified_credit_cost_output
    total_actual_credit_cost := modified_credit_cost_input + modified_credit_cost_output }

/-- `calculate_predicted_summaries_cost` (predictions.py): o1 tier,
`chapters_count * 50` predicted output tokens, and NO `max(1, ...)`
floor on either base cost. -/
def calculate_predicted_summaries_cost (cfg : TokenCostConfig) (mods : ModifierTable)
    (input_token_count : ℤ) (chapters_count : ℤ) : PredictedCost :=
  let predicted_output_tokens := chapters_count * 50
  let input_tokens_per_credit := pyRound2 (qdiv (qmul cfg.o1_cost_per_credit 1000000) cfg.o1_cost_per_1m_input)
  let output_tokens_per_credit := pyRound2 (qdiv (qmul cfg.o1_cost_per_credit 1000000) cfg.o1_cost_per_1m_output)
  let base_credit_cost_input := pyRound (qdiv (input_token_count : ℚ) input_tokens_per_credit)
  let base_credit_cost_output := pyRound (qdiv (predicted_output_tokens : ℚ) output_tokens_per_credit)
  let modifier_input := modifierFor mods "summary_input"
  let modifier_output := modifierFor mods "summary_output"
  let modified_credit_cost_input := pyRound (qmul (base_credit_cost_input : ℚ) modifier_input)
  let modified_credit_cost_output := pyRound (qmul (base_credit_cost_output : ℚ) modifier_output)
  { input_tokens := input_token_count
    predicted_output_tokens := predicted_output_tokens
    input_tokens_per_credit := input_tokens_per_credit
    output_tokens_per_credit := output_tokens_per_credit
    base_credit_cost_input := base_credit_cost_input
    modified_credit_cost_input := modified_credit_cost_input
    base_credit_cost_output := base_credit_cost_output
    modified_credit_cost_output := modified_credit_cost_output
    total_predicted_credit_cost := modified_credit_cost_input + modified_credit_cost_output }

/-- `calculate_actual_summaries_cost` (predictions.py): o1 tier, measured
output tokens, no floor on either base cost. -/
def calculate_actual_summaries_cost (cfg : TokenCostConfig) (mods : ModifierTable)
    (input_token_count output_token_count : ℤ) : ActualCost :=
  let input_tokens_per_credit := pyRound2 (qdiv (qmul cfg.o1_cost_per_credit 1000000) cfg.o1_cost_per_1m_input)
  let output_tokens_per_credit := pyRound2 (qdiv (qmul cfg.o1_cost_per_credit 1000000) cfg.o1_cost_per_1m_output)
  let base_credit_cost_input := pyRound (qdiv (input_token_count : ℚ) input_tokens_per_credit)
  let base_credit_cost_output := pyRound (qdiv (output_token_count : ℚ) output_tokens_per_credit)
  let modifier_input := modifierFor mods "summary_input"
  let modifier_output := modifierFor mods "summary_output"
  let modified_credit_cost_input := pyRound (qmul (base_credit_cost_input : ℚ) modifier_input)
  let modified_credit_cost_output := pyRound (qmul (base_credit_cost_output : ℚ) modifier_output)
  { input_tokens := input_token_count
    output_tokens := output_token_count
    model := "o1-mini"
    input_tokens_per_credit := input_tokens_per_credit
    output_tokens_per_credit := output_tokens_per_credit
    base_credit_cost_input := base_credit_cost_input
    modified_credit_cost_input := modified_credit_cost_input
    base_credit_cost_output := base_credit_cost_output
    modified_credit_cost_output := modified_credit_cost_output
    total_actual_credit_cost := modified_credit_cost_input + modified_credit_cost_output }

/-- `calculate_predicted_story_arcs_cost` (predictions.py): o1 tier,
fixed 250 predicted output tokens, `max(1, ...)` floors kept,
`arcs_input`/`arcs_output` modifiers. -/
def calculate_predicted_story_arcs_cost (cfg : TokenCostConfig) (mods : ModifierTable)
    (input_token_count : ℤ) : PredictedCost :=
  let input_tokens_per_credit := pyRound2 (qdiv (qmul cfg.o1_cost_per_credit 1000000) cfg.o1_cost_per_1m_input)
  let output_tokens_per_credit := pyRound2 (qdiv (qmul cfg.o1_cost_per_credit 1000000) cfg.o1_cost_per_1m_output)
  let base_credit_cost_input := max 1 (pyRound (qdiv (input_token_count : ℚ) input_tokens_per_credit))
  let predicted_output_tokens : ℤ := 250
  let base_credit_cost_output := max 1 (pyRound (qdiv (predicted_output_tokens : ℚ) output_tokens_per_credit))
  let modifier_input := modifierFor mods "arcs_input"
  let modifier_output := modifierFor mods "arcs_output"
  let modified_credit_cost_input := pyRound (qmul (base_credit_cost_input : ℚ) modifier_input)
  let modified_credit_cost_output := pyRound (qmul (base_credit_cost_output : ℚ) modifier_output)
  { input_tokens := input_token_count
    predicted_output_tokens := predicted_output_tokens
    input_tokens_per_credit := input_tokens_per_credit
    output_tokens_per_credit := output_tokens_per_credit
    base_credit_cost_input := base_credit_cost_input
    modified_credit_cost_input := modified_credit_cost_input
    base_credit_cost_output := base_credit_cost_output
    modified_credit_cost_output := modified_credit_cost_output
    total_predicted_credit_cost := modified_credit_cost_input + modified_credit_cost_output }

/-- `calculate_actual_story_arcs_cost` (predictions.py): o1 tier,
measured output tokens, `max(1, ...)` floors kept. -/
def calculate_actual_story_arcs_cost (cfg : TokenCostConfig) (mods : ModifierTable)
    (input_token_count output_token_count : ℤ) : ActualCost :=
  let input_tokens_per_credit := pyRound2 (qdiv (qmul cfg.o1_cost_per_credit 1000000) cfg.o1_cost_per_1m_input)
  let output_tokens_per_credit := pyRound2 (qdiv (qmul cfg.o1_cost_per_credit 1000000) cfg.o1_cost_per_1m_output)
  let base_credit_cost_input := max 1 (pyRound (qdiv (input_token_count : ℚ) input_tokens_per_credit))
  let base_credit_cost_output := max 1 (pyRound (qdiv (output_token_count : ℚ) output_tokens_per_credit))
  let modifier_input := modifierFor mods "arcs_input"
  let modifier_output := modifierFor mods "arcs_output"
  let modified_credit_cost_input := pyRound (qmul (base_credit_cost_input : ℚ) modifier_input)
  let modified_credit_cost_output := pyRound (qmul (base_credit_cost_output : ℚ) modifier_output)
  { input_tokens := input_token_count
    output_tokens := output_token_count
    model := "o1-mini"
    input_tokens_per_credit := input_tokens_per_credit
    output_tokens_per_credit := output_tokens_per_credit
    base_credit_cost_input := base_credit_cost_input
    modified_credit_cost_input := modified_credit_cost_input
    base_credit_cost_output := base_credit_cost_output
    modified_credit_cost_output := modified_credit_cost_output
    total_actual_credit_cost := modified_credit_cost_input + modified_credit_cost_output }

/-- `calculate_predicted_chapter_guide_cost` (predictions.py): o1 tier,
fixed 250 predicted output tokens, `max(1, ...)` floors kept,
`chapter_guide_input`/`chapter_guide_output` modifiers. -/
def calculate_predicted_chapter_guide_cost (cfg : TokenCostConfig) (mods : ModifierTable)
    (input_token_count : ℤ) : PredictedCost :=
  let input_tokens_per_credit := pyRound2 (qdiv (qmul cfg.o1_cost_per_credit 1000000) cfg.o1_cost_per_1m_input)
  let output_tokens_per_credit := pyRound2 (qdiv (qmul cfg.o1_cost_per_credit 1000000) cfg.o1_cost_per_1m_output)
  let base_credit_cost_input := max 1 (pyRound (qdiv (input_token_count : ℚ) input_tokens_per_credit))
  let predicted_output_tokens : ℤ := 250
  let base_credit_cost_output := max 1 (pyRound (qdiv (predicted_output_tokens : ℚ) output_tokens_per_credit))
  let modifier_input := modifierFor mods "chapter_guide_input"
  let modifier_output := modifierFor mods "chapter_guide_output"
  let modified_credit_cost_input := pyRound (qmul (base_credit_cost_input : ℚ) modifier_input)
  let modified_credit_cost_output := pyRound (qmul (base_credit_cost_output : ℚ) modifier_output)
  { input_tokens := input_token_count
    predicted_output_tokens := predicted_output_tokens
    input_tokens_per_credit := input_tokens_per_credit
    output_tokens_per_credit := output_tokens_per_credit
    base_credit_cost_input := base_credit_cost_input
    modified_credit_cost_input := modified_credit_cost_input
    base_credit_cost_output := base_credit_cost_output
    modified_credit_cost_output := modified_credit_cost_output
    total_predicted_credit_cost := modified_credit_cost_input + modified_credit_cost_output }

/-- `calculate_actual_chapter_guide_cost` (predictions.py): o1 tier,
measured output tokens, `max(1, ...)` floors kept. -/
def calculate_actual_chapter_guide_cost (cfg : TokenCostConfig) (mods : ModifierTable)
    (input_token_count output_token_count : ℤ) : ActualCost :=
  let input_tokens_per_credit := pyRound2 (qdiv (qmul cfg.o1_cost_per_credit 1000000) cfg.o1_cost_per_1m_input)
  let output_tokens_per_credit := pyRound2 (qdiv (qmul cfg.o1_cost_per_credit 1000000) cfg.o1_cost_per_1m_output)
  let base_credit_cost_input := max 1 (pyRound (qdiv (input_token_count : ℚ) input_tokens_per_credit))
  let base_credit_cost_output := max 1 (pyRound (qdiv (output_token_count : ℚ) output_tokens_per_credit))
  let modifier_input := modifierFor mods "chapter_guide_input"
  let modifier_output := modifierFor mods "chapter_guide_output"
  let modified_credit_cost_input := pyRound (qmul (base_credit_cost_input : ℚ) modifier_input)
  let modified_credit_cost_output := pyRound (qmul (base_credit_cost_output : ℚ) modifier_output)
  { input_tokens := input_token_count
    output_tokens := output_token_count
    model := "o1-mini"
    input_tokens_per_credit := input_tokens_per_credit
    output_tokens_per_credit := output_tokens_per_credit
    base_credit_cost_input := base_credit_cost_input
    modified_credit_cost_input := modified_credit_cost_input
    base_credit_cost_output := base_credit_cost_output
    modified_credit_cost_output := modified_credit_cost_output
    total_actual_credit_cost := modified_credit_cost_input + modified_credit_cost_output }

/-- `calculate_predicted_chapter_cost` (predictions.py): o1 tier, fixed
300 predicted output tokens, and NO `max(1, ...)` floor on either base
cost; `chapter_input`/`chapter_output` modifiers. -/
def calculate_predicted_chapter_cost (cfg : TokenCostConfig) (mods : ModifierTable)
    (input_token_count : ℤ) : PredictedCost :=
  let predicted_output_tokens : ℤ := 300
  let input_tokens_per_credit := pyRound2 (qdiv (qmul cfg.o1_cost_per_credit 1000000) cfg.o1_cost_per_1m_input)
  let output_tokens_per_credit := pyRound2 (qdiv (qmul cfg.o1_cost_per_credit 1000000) cfg.o1_cost_per_1m_output)
  let base_credit_cost_input := pyRound (qdiv (input_token_count : ℚ) input_tokens_per_credit)
  let base_credit_cost_output := pyRound (qdiv (predicted_output_tokens : ℚ) output_tokens_per_credit)
  let modifier_input := modifierFor mods "chapter_input"
  let modifier_output := modifierFor mods "chapter_output"
  let modified_credit_cost_input := pyRound (qmul (base_credit_cost_input : ℚ) modifier_input)
  let modified_credit_cost_output := pyRound (qmul (base_credit_cost_output : ℚ) modifier_output)
  { input_tokens := input_token_count
    predicted_output_tokens := predicted_output_tokens
    input_tokens_per_credit := input_tokens_per_credit
    output_tokens_per_credit := output_tokens_per_credit
    base_credit_cost_input := base_credit_cost_input
    modified_credit_cost_input := modified_credit_cost_input
    base_credit_cost_output := base_credit_cost_output
    modified_credit_cost_output := modified_credit_cost_output
    total_predicted_credit_cost := modified_credit_cost_input + modified_credit_cost_output }

/-- `calculate_actual_chapter_cost` (predictions.py): o1 tier, measured
output tokens, no floor on either base cost. -/
def calculate_actual_chapter_cost (cfg : TokenCostConfig) (mods : ModifierTable)
    (input_token_count output_token_count : ℤ) : ActualCost :=
  let input_tokens_per_credit := pyRound2 (qdiv (qmul cfg.o1_cost_per_credit 1000000) cfg.o1_cost_per_1m_input)
  let output_tokens_per_credit := pyRound2 (qdiv (qmul cfg.o1_cost_per_credit 1000000) cfg.o1_cost_per_1m_output)
  let base_credit_cost_input := pyRound (qdiv (input_token_count : ℚ) input_tokens_per_credit)
  let base_credit_cost_output := pyRound (qdiv (output_token_count : ℚ) output_tokens_per_credit)
  let modifier_input := modifierFor mods "chapter_input"
  let modifier_output := modifierFor mods "chapter_output"
  let modified_credit_cost_input := pyRound (qmul (base_credit_cost_input : ℚ) modifier_input)
  let modified_credit_cost_output := pyRound (qmul (base_credit_cost_output : ℚ) modifier_output)
  { input_tokens := input_token_count
    output_tokens := output_token_count
    model := "o1-mini"
    input_tokens_per_credit := input_tokens_per_credit
    output_tokens_per_credit := output_tokens_per_credit
    base_credit_cost_input := base_credit_cost_input
    modified_credit_cost_input := modified_credit_cost_input
    base_credit_cost_output := base_credit_cost_output
    modified_credit_cost_output := modified_credit_cost_output
    total_actual_credit_cost := modified_credit_cost_input + modified_credit_cost_output }

/-! ## System state: lock store, generation log, user credits, story data

The generation lock lives in redis under keys `generation_lock:{user_id}`
(api/generation.py); it is modelled as the list of locked user ids.
`GenerationLog` rows (models/GenerationLog.py) are kept newest-first, so
`order_by(desc(GenerationLog.id)).first()` is `find?` from the head.
Credits are the three counters on the `User` row (models/User.py). -/

/-- The `generation_type` strings used by the dispatchers and workers. -/
inductive GenKind
  | meta
  | story_arcs
  | summaries
  | chapter_guide
  | chapter
  | image
deriving Repr, DecidableEq

/-- The `status` strings written to `GenerationLog` rows. -/
inductive JobStatus
  | pending
  | succeeded
  | failed
deriving Repr, DecidableEq

/-- A `GenerationLog` row (models/GenerationLog.py).  `real_cost`,
`error_message` and `model` are nullable columns. -/
structure LogEntry where
  user_id : Nat
  task_id : Nat
  generation_type : GenKind
  predicted_cost : ℚ
  real_cost : Option ℚ
  status : JobStatus
  error_message : Option String
  input_tokens : ℤ
  output_tokens : ℤ
  model : Option String
deriving Repr, DecidableEq

/-- The credit counters of the acting user (columns on `User`). -/
structure UserRec where
  id : Nat
  text_credits : ℚ
  image_credits : ℚ
  audio_credits : ℚ
deriving Repr, DecidableEq

/-- A `Character` row owned by a story. -/
structure CharacterRec where
  name : String
  description : String
  example_dialogue : String
deriving Repr, DecidableEq

/-- A `Location` row owned by a story. -/
structure LocationRec where
  name : String
  description : String
deriving Repr, DecidableEq

/-- A `Chapter` row (the fields the pipeline touches). -/
structure ChapterRec where
  chapter_number : Nat
  title : String
  summary : String
  content : String
deriving Repr, DecidableEq

/-- A `ChapterGuide` row (models/ChapterGuide.py, the fields the
pipeline writes). -/
structure GuideRec where
  chapter_title : String
  part_index : ℤ
  part_text : String
  characters : List String
  locations : List String
deriving Repr, DecidableEq

/-- The mutable state the generation pipeline touches: the redis lock
keys, the `GenerationLog` table (newest first), the acting user's credit
counters, and the story-owned rows the workers replace. -/
structure SysState where
  locks : List Nat
  logs : List LogEntry
  user : UserRec
  characters : List CharacterRec
  locations : List LocationRec
  story_arcs : List String
  chapters : List ChapterRec
  chapter_guide : List GuideRec
  cover_image_key : Option String
deriving Repr, DecidableEq

/-- `set_user_generation_lock` (api/generation.py): redis
`SET key 1 EX expire NX` — fails when the key already exists, returning
whether the lock was taken togther with the updated lock store. -/
def set_user_generation_lock (user_id : Nat) (st : SysState) : Bool × SysState :=
  if user_id ∈ st.locks then (false, st)
  else (true, { st with locks := user_id :: st.locks })

/-- `clear_user_generation_lock` (api/generation.py): unconditional
redis `DELETE` of the user's lock key. -/
def clear_user_generation_lock (user_id : Nat) (st : SysState) : SysState :=
  { st with locks := st.locks.filter (fun u => u ≠ user_id) }

/-- The credit pools (`text`/`image`/`audio`). -/
inductive CreditType
  | text
  | image
  | audio
deriving Repr, DecidableEq

/-- `can_spend_credits` (helpers.py): counter ≥ cost for the named pool. -/
def can_spend_credits (user : UserRec) (credit_type : CreditType) (cost : ℚ) : Bool :=
  match credit_type with
  | .text => cost ≤ user.text_credits
  | .image => cost ≤ user.image_credits
  | .audio => cost ≤ user.audio_credits

/-- `spend_credits` (helpers.py): unconditionally subtract from the named
pool; the counter may go negative. -/
def spend_credits (credit_type : CreditType) (cost : ℚ) (st : SysState) : SysState :=
  match credit_type with
  | .text => { st with user := { st.user with text_credits := qsub st.user.text_credits cost } }
  | .image => { st with user := { st.user with image_credits := qsub st.user.image_credits cost } }
  | .audio => { st with user := { st.user with audio_credits := qsub st.user.audio_credits cost } }

/-- `is_last_generation_and_negative_creds` (helpers.py): look at the
user's most recent `GenerationLog` row; if it is of the queried kind and
the corresponding pool is ≤ 0, the guard trips.  The if-chain maps every
text kind to `text_credits` and `image` to `image_credits`. -/
def is_last_generation_and_negative_creds (st : SysState) (t : GenKind) : Bool :=
  match st.logs.find? (fun e => e.user_id == st.user.id) with
  | none => false
  | some log_entry =>
    if log_entry.generation_type ≠ t then false
    else
      match log_entry.generation_type with
      | .meta => decide (st.user.text_credits ≤ 0)
      | .story_arcs => decide (st.user.text_credits ≤ 0)
      | .summaries => decide (st.user.text_credits ≤ 0)
      | .chapter_guide => decide (st.user.text_credits ≤ 0)
      | .chapter => decide (st.user.text_credits ≤ 0)
      | .image => decide (st.user.image_credits ≤ 0)

/-! ## The dispatch endpoints (api/generation.py)

Each `api_generate_*` handler is a function from the request context to a
JSON response and the updated state.  What the handler derives from the
database and the tokenizer (does the story exist, the estimator's
prediction) is passed in as arguments; the handler bodies below follow
the source's check order exactly.  The celery `delay` call and the
enqueue `try` block are modelled as always succeeding — claims about the
enqueue-crash handler are out of scope. -/

/-- JSON responses returned by the dispatch endpoints. -/
inductive DispatchResp
  /-- `{"task_id": ..., "status": "queued", "predicted_cost": ...}` -/
  | queued (task_id : Nat)
  /-- `{"error": True}` from the negative-credit guard -/
  | errGuard
  /-- `{"error": "Story not found."}, 404` -/
  | errNotFound
  /-- `{"error": "A generation task is already in progress."}, 400` -/
  | errInProgress
  /-- `{"error": "Not enough credits.", "required": r, "available": a}, 400` -/
  | errNotEnough (required : ℚ) (available : ℚ)
  /-- `{"error": "Not enough credits.", "required": r}, 400` (image endpoints) -/
  | errNotEnoughReq (required : ℚ)
  /-- `{"error": "Chapter data not found."}, 400` -/
  | errChapterData
deriving Repr, DecidableEq

/-- A fresh `pending` `GenerationLog` row as created by the dispatchers. -/
def newLog (user_id task_id : Nat) (t : GenKind) (predicted : ℚ) : LogEntry :=
  { user_id := user_id
    task_id := task_id
    generation_type := t
    predicted_cost := predicted
    real_cost := none
    status := .pending
    error_message := none
    input_tokens := 0
    output_tokens := 0
    model := none }

/-- `api_generate_meta` (api/generation.py): guard, story check,
predicted cost, affordability — no lock is ever taken. -/
def api_generate_meta (st : SysState) (story_exists : Bool)
    (total_predicted_cost : ℤ) (task_id : Nat) : DispatchResp × SysState :=
  if is_last_generation_and_negative_creds st .meta then (.errGuard, st)
  else if ¬ story_exists then (.errNotFound, st)
  else if ¬ can_spend_credits st.user .text (total_predicted_cost : ℚ) then
    (.errNotEnough (total_predicted_cost : ℚ) st.user.text_credits, st)
  else
    (.queued task_id,
     { st with logs := newLog st.user.id task_id .meta (total_predicted_cost : ℚ) :: st.logs })

/-- `api_generate_arcs` (api/generation.py): guard, story check,
predicted cost, affordability — no lock is ever taken. -/
def api_generate_arcs (st : SysState) (story_exists : Bool)
    (total_predicted_cost : ℤ) (task_id : Nat) : DispatchResp × SysState :=
  if is_last_generation_and_negative_creds st .story_arcs then (.errGuard, st)
  else if ¬ story_exists then (.errNotFound, st)
  else if ¬ can_spend_credits st.user .text (total_predicted_cost : ℚ) then
    (.errNotEnough (total_predicted_cost : ℚ) st.user.text_credits, st)
  else
    (.queued task_id,
     { st with logs := newLog st.user.id task_id .story_arcs (total_predicted_cost : ℚ) :: st.logs })

/-- `api_generate_summaries` (api/generation.py): guard, story check,
then `set_user_generation_lock`; on the insufficient-credits rejection
the handler returns without releasing the lock it just acquired. -/
def api_generate_summaries (st : SysState) (story_exists : Bool)
    (total_predicted_cost : ℤ) (task_id : Nat) : DispatchResp × SysState :=
  if is_last_generation_and_negative_creds st .summaries then (.errGuard, st)
  else if ¬ story_exists then (.errNotFound, st)
  else
    match set_user_generation_lock st.user.id st with
    | (false, st1) => (.errInProgress, st1)
    | (true, st1) =>
      if ¬ can_spend_credits st1.user .text (total_predicted_cost : ℚ) then
        (.errNotEnough (total_predicted_cost : ℚ) st1.user.text_credits, st1)
      else
        (.queued task_id,
         { st1 with logs := newLog st1.user.id task_id .summaries (total_predicted_cost : ℚ) :: st1.logs })

/-- `api_generate_chapter_guide` (api/generation.py): guard, story check,
predicted cost, affordability — no lock is ever taken. -/
def api_generate_chapter_guide (st : SysState) (story_exists : Bool)
    (total_predicted_cost : ℤ) (task_id : Nat) : DispatchResp × SysState :=
  if is_last_generation_and_negative_creds st .chapter_guide then (.errGuard, st)
  else if ¬ story_exists then (.errNotFound, st)
  else if ¬ can_spend_credits st.user .text (total_predicted_cost : ℚ) then
    (.errNotEnough (total_predicted_cost : ℚ) st.user.text_credits, st)
  else
    (.queued task_id,
     { st with logs := newLog st.user.id task_id .chapter_guide (total_predicted_cost : ℚ) :: st.logs })

/-- `api_generate_chapter` (api/generation.py): guard, story check,
`set_user_generation_lock`, chapter-data check (releasing the lock on
failure), affordability (releasing the lock on rejection), enqueue. -/
def api_generate_chapter (st : SysState) (story_exists : Bool)
    (chapter_data_found : Bool) (total_predicted_cost : ℤ) (task_id : Nat) :
    DispatchResp × SysState :=
  if is_last_generation_and_negative_creds st .chapter then (.errGuard, st)
  else if ¬ story_exists then (.errNotFound, st)
  else
    match set_user_generation_lock st.user.id st with
    | (false, st1) => (.errInProgress, st1)
    | (true, st1) =>
      if ¬ chapter_data_found then
        (.errChapterData, clear_user_generation_lock st1.user.id st1)
      else if ¬ can_spend_credits st1.user .text (total_predicted_cost : ℚ) then
        (.errNotEnough (total_predicted_cost : ℚ) st1.user.text_credits,
         clear_user_generation_lock st1.user.id st1)
      else
        (.queued task_id,
         { st1 with logs := newLog st1.user.id task_id .chapter (total_predicted_cost : ℚ) :: st1.logs })

/-- `api_generate_all_chapters` (api/generation.py): guard (kind
`chapter`), story check, `set_user_generation_lock`, aggregate
affordability (releasing the lock on rejection), then one `pending` log
row per chapter.  `chapter_preds` is the per-chapter predicted cost list;
`task_ids` the celery ids, one per chapter. -/
def api_generate_all_chapters (st : SysState) (story_exists : Bool)
    (total_predicted_cost : ℤ) (chapter_preds : List ℤ) (task_ids : List Nat) :
    DispatchResp × SysState :=
  if is_last_generation_and_negative_creds st .chapter then (.errGuard, st)
  else if ¬ story_exists then (.errNotFound, st)
  else
    match set_user_generation_lock st.user.id st with
    | (false, st1) => (.errInProgress, st1)
    | (true, st1) =>
      if ¬ can_spend_credits st1.user .text (total_predicted_cost : ℚ) then
        (.errNotEnough (total_predicted_cost : ℚ) st1.user.text_credits,
         clear_user_generation_lock st1.user.id st1)
      else
        let rows := (List.zip task_ids chapter_preds).foldl
          (fun acc p => newLog st1.user.id p.1 .chapter (p.2 : ℚ) :: acc) st1.logs
        (.queued 0, { st1 with logs := rows })

/-- `api_generate_cover_image` (api/generation.py): image guard, story
lookup, image cost, affordability (the image rejection carries only
`required`, no `available`); the created `pending` row already has
`real_cost` filled with the prediction.  No lock is acquired anywhere. -/
def api_generate_cover_image (st : SysState) (story_exists : Bool)
    (prediction : ℚ) (task_id : Nat) : DispatchResp × SysState :=
  if is_last_generation_and_negative_creds st .image then (.errGuard, st)
  else if ¬ story_exists then (.errNotFound, st)
  else if ¬ can_spend_credits st.user .image prediction then
    (.errNotEnoughReq prediction, st)
  else
    (.queued task_id,
     { st with logs :=
        { newLog st.user.id task_id .image prediction with real_cost := some prediction } :: st.logs })

/-- `api_generate_chapter_image` (api/generation.py): like the cover
endpoint but the created row leaves `real_cost` null.  No lock is
acquired anywhere. -/
def api_generate_chapter_image (st : SysState) (chapter_exists : Bool)
    (prediction : ℚ) (task_id : Nat) : DispatchResp × SysState :=
  if is_last_generation_and_negative_creds st .image then (.errGuard, st)
  else if ¬ chapter_exists then (.errNotFound, st)
  else if ¬ can_spend_credits st.user .image prediction then
    (.errNotEnoughReq prediction, st)
  else
    (.queued task_id,
     { st with logs := newLog st.user.id task_id .image prediction :: st.logs })

/-! ## The celery worker tasks (tasks.py)

Every task wraps its body in `try/except/finally`: the `except` branch
marks the log row failed with the error text, and the `finally` branch
unconditionally runs `clear_user_generation_lock(user_id)`.  In the
embedding the body-with-except is computed first and the `finally`
cleanup is applied to its result, exactly as Python guarantees (also on
early `return`).  What the collaborators do (the LLM call raising, the
output parsing, a later persistence step raising) is enumerated by an
outcome type per task. -/

/-- Update the first log row matching `p` (the workers look their row up
with `filter_by(...).first()` and update it if present). -/
def updateFirstLog (p : LogEntry → Bool) (f : LogEntry → LogEntry) :
    List LogEntry → List LogEntry
  | [] => []
  | e :: rest => if p e then f e :: rest else e :: updateFirstLog p f rest

/-- The row filter used by each worker:
`filter_by(task_id=..., user_id=..., generation_type=...)`. -/
def isTaskLog (task_id user_id : Nat) (t : GenKind) (e : LogEntry) : Bool :=
  e.task_id == task_id && e.user_id == user_id && e.generation_type == t

/-- The `except`-branch update: `status = "failed"` plus the error text. -/
def markFailed (m : String) (e : LogEntry) : LogEntry :=
  { e with status := .failed, error_message := some m }

/-- The text-worker success update: `real_cost`, `status = "succeeded"`,
token counts and model name. -/
def markSucceeded (rc : ℚ) (it ot : ℤ) (md : String) (e : LogEntry) : LogEntry :=
  { e with real_cost := some rc, status := .succeeded, input_tokens := it, output_tokens := ot, model := some md }

/-- The image-worker success update: status and model only (`real_cost`
is not written by the image worker). -/
def markImageSucceeded (e : LogEntry) : LogEntry :=
  { e with status := .succeeded, model := some "dall-e-3" }

/-- Outcomes of `generate_image_task`'s try block. -/
inductive ImageOutcome
  /-- the image generation/fetch/upload or a later step raised -/
  | error (msg : String)
  /-- the story (or chapter) row is gone: early `return` inside `try` -/
  | targetMissing
  /-- everything succeeded; the stored image key -/
  | success (image_url : String)
deriving Repr, DecidableEq

/-- `generate_image_task` (tasks.py): persist the image, debit the image
pool by the dispatch-time `credit_cost`, mark the log row succeeded with
model `dall-e-3` (`real_cost` is not written here); on exception mark it
failed; on a missing target return early leaving the row untouched.  The
`finally` block always deletes the user's generation lock. -/
def generate_image_task (o : ImageOutcome) (user_id task_id : Nat)
    (credit_cost : ℚ) (st : SysState) : SysState :=
  let p := isTaskLog task_id user_id .image
  let st1 :=
    match o with
    | .targetMissing => st
    | .success url =>
      let sta := { st with cover_image_key := some url }
      let stb := spend_credits .image credit_cost sta
      { stb with logs := updateFirstLog p markImageSucceeded stb.logs }
    | .error m =>
      { st with logs := updateFirstLog p (markFailed m) st.logs }
  clear_user_generation_lock user_id st1

/-- Outcomes of `generate_meta_task`'s try block. -/
inductive MetaOutcome
  /-- `generate_meta_from_prompt` raised -/
  | llmError (msg : String)
  /-- the LLM returned text; a `json.loads` failure is caught and turned
  into `{"locations": [], "characters": []}`, i.e. `parsed [] []` -/
  | parsed (chars : List CharacterRec) (locs : List LocationRec)
      (output_token_count : ℤ)
  /-- a step after the parse (persistence, debit, log commit) raised -/
  | lateError (msg : String)
deriving Repr, DecidableEq

/-- `generate_meta_task` (tasks.py): on an empty parse result (no
characters and no locations) notify failure, clear the lock and `return`
early — the log row is not touched.  Otherwise replace the story's
characters/locations (when the story row exists), debit the text pool by
the reconciled actual cost, and mark the row succeeded with `real_cost`
and token counts; when the story row is missing the result-emission block
dereferences `story.id` and raises, landing in the `except` branch after
the debit.  Exceptions mark the row failed.  The `finally` block always
deletes the user's generation lock. -/
def generate_meta_task (cfg : TokenCostConfig) (mods : ModifierTable)
    (o : MetaOutcome) (story_exists : Bool) (user_id task_id : Nat)
    (predicted_input_tokens : ℤ) (st : SysState) : SysState :=
  let p := isTaskLog task_id user_id .meta
  let st1 :=
    match o with
    | .llmError m =>
      { st with logs := updateFirstLog p (markFailed m) st.logs }
    | .lateError m =>
      { st with logs := updateFirstLog p (markFailed m) st.logs }
    | .parsed chars locs output_token_count =>
      if locs.length = 0 ∧ chars.length = 0 then
        clear_user_generation_lock user_id st
      else
        let sta := if story_exists then { st with characters := chars, locations := locs } else st
        let actual := calculate_actual_meta_cost cfg mods predicted_input_tokens output_token_count
        let real_total := (actual.total_actual_credit_cost : ℚ)
        let stb := spend_credits .text real_total sta
        let stc := { stb with logs := updateFirstLog p (markSucceeded real_total actual.input_tokens actual.output_tokens actual.model) stb.logs }
        if story_exists then stc
        else
          { stc with logs := updateFirstLog p (markFailed "AttributeError: NoneType has no attribute id") stc.logs }
  clear_user_generation_lock user_id st1

/-- Outcomes of `generate_story_arcs_task`'s try block. -/
inductive ArcsOutcome
  /-- the LLM call, `json.loads`, or a later step raised -/
  | failure (msg : String)
  /-- the arcs parsed; the parsed list and the measured output tokens -/
  | success (arcs : List String) (output_token_count : ℤ)
deriving Repr, DecidableEq

/-- `generate_story_arcs_task` (tasks.py): replace the story's arcs
(when the story row exists), debit the text pool by the reconciled
actual cost, mark the row succeeded; exceptions mark it failed.  The
`finally` block always deletes the user's generation lock. -/
def generate_story_arcs_task (cfg : TokenCostConfig) (mods : ModifierTable)
    (o : ArcsOutcome) (story_exists : Bool) (user_id task_id : Nat)
    (predicted_input_tokens : ℤ) (st : SysState) : SysState :=
  let p := isTaskLog task_id user_id .story_arcs
  let st1 :=
    match o with
    | .failure m =>
      { st with logs := updateFirstLog p (markFailed m) st.logs }
    | .success arcs output_token_count =>
      let sta := if story_exists then { st with story_arcs := arcs } else st
      let actual := calculate_actual_story_arcs_cost cfg mods predicted_input_tokens output_token_count
      let real_total := (actual.total_actual_credit_cost : ℚ)
      let stb := spend_credits .text real_total sta
      { stb with logs := updateFirstLog p (markSucceeded real_total actual.input_tokens actual.output_tokens actual.model) stb.logs }
  clear_user_generation_lock user_id st1

/-- Outcomes of `generate_summaries_task`'s try block. -/
inductive SummariesOutcome
  /-- the LLM call raised, the response was empty or unparsable (both are
  re-raised as `ValueError`), the story row is gone, or a later step
  raised -/
  | failure (msg : String)
  /-- parsed `(title, summary)` pairs in order, and the measured output
  tokens -/
  | success (summaries : List (String × String)) (output_token_count : ℤ)
deriving Repr, DecidableEq

/-- One iteration of the summaries persistence loop: update the chapter
at 1-based position `idx` if it exists, else create it. -/
def upsertChapter (chapters : List ChapterRec) (idx : Nat)
    (title summary : String) : List ChapterRec :=
  if chapters.any (fun c => c.chapter_number == idx) then
    chapters.map (fun c =>
      if c.chapter_number == idx then { c with title := title, summary := summary } else c)
  else
    chapters ++ [{ chapter_number := idx, title := title, summary := summary, content := "" }]

/-- `generate_summaries_task` (tasks.py): upsert one chapter row per
parsed summary (1-based position), debit the text pool by the reconciled
actual cost, mark the row succeeded; exceptions mark it failed.  The
`finally` block always deletes the user's generation lock. -/
def generate_summaries_task (cfg : TokenCostConfig) (mods : ModifierTable)
    (o : SummariesOutcome) (user_id task_id : Nat)
    (predicted_input_tokens : ℤ) (st : SysState) : SysState :=
  let p := isTaskLog task_id user_id .summaries
  let st1 :=
    match o with
    | .failure m =>
      { st with logs := updateFirstLog p (markFailed m) st.logs }
    | .success summaries output_token_count =>
      let chapters' := (summaries.enum).foldl
        (fun acc q => upsertChapter acc (q.1 + 1) q.2.1 q.2.2) st.chapters
      let sta := { st with chapters := chapters' }
      let actual := calculate_actual_summaries_cost cfg mods predicted_input_tokens output_token_count
      let real_total := (actual.total_actual_credit_cost : ℚ)
      let stb := spend_credits .text real_total sta
      { stb with logs := updateFirstLog p (markSucceeded real_total actual.input_tokens actual.output_tokens actual.model) stb.logs }
  clear_user_generation_lock user_id st1

/-- Outcomes of `generate_chapter_guide_task`'s try block. -/
inductive GuideOutcome
  /-- the LLM call, `json.loads`, or a later step raised -/
  | failure (msg : String)
  /-- the guide parsed to these mappings (entries with a missing arc
  number or text are already skipped by the parse loop) -/
  | success (mappings : List GuideRec) (output_token_count : ℤ)
deriving Repr, DecidableEq

/-- `generate_chapter_guide_task` (tasks.py): delete the story's guide
rows and insert the parsed mappings, debit the text pool by the
reconciled actual cost, mark the row succeeded; exceptions mark it
failed.  The `finally` block always deletes the user's generation
lock. -/
def generate_chapter_guide_task (cfg : TokenCostConfig) (mods : ModifierTable)
    (o : GuideOutcome) (user_id task_id : Nat)
    (predicted_input_tokens : ℤ) (st : SysState) : SysState :=
  let p := isTaskLog task_id user_id .chapter_guide
  let st1 :=
    match o with
    | .failure m =>
      { st with logs := updateFirstLog p (markFailed m) st.logs }
    | .success mappings output_token_count =>
      let sta := { st with chapter_guide := mappings }
      let actual := calculate_actual_chapter_guide_cost cfg mods predicted_input_tokens output_token_count
      let real_total := (actual.total_actual_credit_cost : ℚ)
      let stb := spend_credits .text real_total sta
      { stb with logs := updateFirstLog p (markSucceeded real_total actual.input_tokens actual.output_tokens actual.model) stb.logs }
  clear_user_generation_lock user_id st1

/-- Outcomes of `generate_chapter_task`'s try block. -/
inductive ChapterOutcome
  /-- the LLM call or a later step raised -/
  | failure (msg : String)
  /-- the LLM returned chapter text (free text, always "valid") -/
  | success (content : String) (output_token_count : ℤ)
deriving Repr, DecidableEq

/-- `generate_chapter_task` (tasks.py): store the content on the chapter
row if it exists, debit the text pool by the reconciled actual cost,
mark the row succeeded; when the chapter row is missing, the emission
block dereferences `chapter.title` and raises, so the `except` branch
then marks the row failed — after the debit and succeeded-update already
ran.  The `finally` block always deletes the user's generation lock. -/
def generate_chapter_task (cfg : TokenCostConfig) (mods : ModifierTable)
    (o : ChapterOutcome) (chapter_number : Nat) (user_id task_id : Nat)
    (predicted_input_tokens : ℤ) (st : SysState) : SysState :=
  let p := isTaskLog task_id user_id .chapter
  let st1 :=
    match o with
    | .failure m =>
      { st with logs := updateFirstLog p (markFailed m) st.logs }
    | .success content output_token_count =>
      let chapter_found := st.chapters.any (fun c => c.chapter_number == chapter_number)
      let sta :=
        if chapter_found then
          { st with chapters := st.chapters.map (fun c =>
              if c.chapter_number == chapter_number then { c with content := content } else c) }
        else st
      let actual := calculate_actual_chapter_cost cfg mods predicted_input_tokens output_token_count
      let real_total := (actual.total_actual_credit_cost : ℚ)
      let stb := spend_credits .text real_total sta
      let stc := { stb with logs := updateFirstLog p (markSucceeded real_total actual.input_tokens actual.output_tokens actual.model) stb.logs }
      if chapter_found then stc
      else
        { stc with logs := updateFirstLog p (markFailed "AttributeError: NoneType has no attribute title") stc.logs }
  clear_user_generation_lock user_id st1

/-! ## Concrete fixtures used by counterexamples and witnesses -/

/-- A pricing configuration with Scenario A's numbers on both tiers:
`cost_per_credit = 0.000999`, `cost_per_1m_input = 0.150`,
`cost_per_1m_output = 0.600`. -/
def cfgA : TokenCostConfig :=
  { cost_per_credit := mkRat 999 1000000
    cost_per_1m_input := mkRat 3 20
    cost_per_1m_output := mkRat 3 5
    o1_cost_per_credit := mkRat 999 1000000
    o1_cost_per_1m_input := mkRat 3 20
    o1_cost_per_1m_output := mkRat 3 5
    dall_e_price_per_image := 4 }

/-- A user with comfortable balances. -/
def userA : UserRec :=
  { id := 1, text_credits := 100, image_credits := 50, audio_credits := 0 }

/-- A quiescent system state for user 1. -/
def stBase : SysState :=
  { locks := []
    logs := []
    user := userA
    characters := []
    locations := []
    story_arcs := []
    chapters := []
    chapter_guide := []
    cover_image_key := none }

/-! ## Helper lemmas -/

/-- Deleting a user's lock key guarantees the key is absent. -/
lemma clear_lock_not_mem (uid : Nat) (st : SysState) :
    uid ∉ (clear_user_generation_lock uid st).locks := by
  simp [clear_user_generation_lock, List.mem_filter]

/-- `clear_user_generation_lock` touches only the lock store. -/
lemma clear_lock_logs (uid : Nat) (st : SysState) :
    (clear_user_generation_lock uid st).logs = st.logs := rfl

/-- Updating the first row matching `p` with a `p`-preserving update
commutes with looking that row up. -/
lemma find?_updateFirstLog (p : LogEntry → Bool) (f : LogEntry → LogEntry)
    (hf : ∀ e, p (f e) = p e) (l : List LogEntry) :
    (updateFirstLog p f l).find? p = (l.find? p).map f := by
  induction l with
  | nil => rfl
  | cons e rest ih =>
    by_cases he : p e
    · simp [updateFirstLog, he, List.find?_cons, hf]
    · simp [updateFirstLog, he, List.find?_cons, ih]

/-! ## Claim theorems -/

/-- **C10**: with `cost_per_credit = 0.000999`, `cost_per_1m_input = 0.150`
and a 10,000-token prompt, the metadata prediction computes
`input_tokens_per_credit = 6660.0`, `base_credit_cost_input = 2`, and,
with input modifier 50, `modified_credit_cost_input = 100`. -/
theorem scenarioA_meta_prediction_numbers :
    (calculate_predicted_meta_cost cfgA [("meta_input", 50), ("meta_output", 50)] 10000).input_tokens_per_credit = 6660
    ∧ (calculate_predicted_meta_cost cfgA [("meta_input", 50), ("meta_output", 50)] 10000).base_credit_cost_input = 2
    ∧ (calculate_predicted_meta_cost cfgA [("meta_input", 50), ("meta_output", 50)] 10000).modified_credit_cost_input = 100 := by
  refine ⟨?_, ?_, ?_⟩ <;> decide

/-- **C5 counterexample**: the claim "every prediction path floors
`base_credit_cost_input` at 1, and no reconciliation path does" is false
on both sides: the summaries prediction yields a base input cost of 0 at
100 input tokens (no floor), while the metadata reconciliation yields 1
at 0 input tokens (a floor). -/
theorem c5_floor_counterexample :
    (calculate_predicted_summaries_cost cfgA [] 100 0).base_credit_cost_input = 0
    ∧ (calculate_actual_meta_cost cfgA [] 0 0).base_credit_cost_input = 1 := by
  refine ⟨?_, ?_⟩ <;> decide

/-- **C5 (amended)**: the `max(1, ...)` floor on `base_credit_cost_input`
is applied on the meta, story-arcs and chapter-guide paths — prediction
and reconciliation alike — and on none of the summaries and chapter
paths, where the base input cost is the bare rounded quotient. -/
theorem base_input_cost_floor_by_path :
    (∀ cfg mods t, 1 ≤ (calculate_predicted_meta_cost cfg mods t).base_credit_cost_input)
    ∧ (∀ cfg mods t, 1 ≤ (calculate_predicted_story_arcs_cost cfg mods t).base_credit_cost_input)
    ∧ (∀ cfg mods t, 1 ≤ (calculate_predicted_chapter_guide_cost cfg mods t).base_credit_cost_input)
    ∧ (∀ cfg mods t u, 1 ≤ (calculate_actual_meta_cost cfg mods t u).base_credit_cost_input)
    ∧ (∀ cfg mods t u, 1 ≤ (calculate_actual_story_arcs_cost cfg mods t u).base_credit_cost_input)
    ∧ (∀ cfg mods t u, 1 ≤ (calculate_actual_chapter_guide_cost cfg mods t u).base_credit_cost_input)
    ∧ (∀ cfg mods t c, (calculate_predicted_summaries_cost cfg mods t c).base_credit_cost_input
        = pyRound (qdiv (t : ℚ) (calculate_predicted_summaries_cost cfg mods t c).input_tokens_per_credit))
    ∧ (∀ cfg mods t, (calculate_predicted_chapter_cost cfg mods t).base_credit_cost_input
        = pyRound (qdiv (t : ℚ) (calculate_predicted_chapter_cost cfg mods t).input_tokens_per_credit))
    ∧ (∀ cfg mods t u, (calculate_actual_summaries_cost cfg mods t u).base_credit_cost_input
        = pyRound (qdiv (t : ℚ) (calculate_actual_summaries_cost cfg mods t u).input_tokens_per_credit))
    ∧ (∀ cfg mods t u, (calculate_actual_chapter_cost cfg mods t u).base_credit_cost_input
        = pyRound (qdiv (t : ℚ) (calculate_actual_chapter_cost cfg mods t u).input_tokens_per_credit)) := by
  refine ⟨fun _ _ _ => le_max_left _ _, fun _ _ _ => le_max_left _ _,
    fun _ _ _ => le_max_left _ _, fun _ _ _ _ => le_max_left _ _,
    fun _ _ _ _ => le_max_left _ _, fun _ _ _ _ => le_max_left _ _,
    fun _ _ _ _ => rfl, fun _ _ _ => rfl, fun _ _ _ _ => rfl, fun _ _ _ _ => rfl⟩

/-- **C9**: when no `CreditModifier` row exists for any looked-up action,
every estimator path uses the fallback multiplier 2 and computes the same
result as with an empty modifier table; in particular the image
estimator's `modifier` field is 2. -/
theorem modifier_absent_fallback_two (mods : ModifierTable)
    (h : ∀ a, lookupModifier mods a = none) :
    (∀ a, modifierFor mods a = 2)
    ∧ (∀ cfg t, calculate_predicted_meta_cost cfg mods t = calculate_predicted_meta_cost cfg [] t)
    ∧ (∀ cfg t u, calculate_actual_meta_cost cfg mods t u = calculate_actual_meta_cost cfg [] t u)
    ∧ (∀ cfg t c, calculate_predicted_summaries_cost cfg mods t c = calculate_predicted_summaries_cost cfg [] t c)
    ∧ (∀ cfg t u, calculate_actual_summaries_cost cfg mods t u = calculate_actual_summaries_cost cfg [] t u)
    ∧ (∀ cfg t, calculate_predicted_story_arcs_cost cfg mods t = calculate_predicted_story_arcs_cost cfg [] t)
    ∧ (∀ cfg t u, calculate_actual_story_arcs_cost cfg mods t u = calculate_actual_story_arcs_cost cfg [] t u)
    ∧ (∀ cfg t, calculate_predicted_chapter_guide_cost cfg mods t = calculate_predicted_chapter_guide_cost cfg [] t)
    ∧ (∀ cfg t u, calculate_actual_chapter_guide_cost cfg mods t u = calculate_actual_chapter_guide_cost cfg [] t u)
    ∧ (∀ cfg t, calculate_predicted_chapter_cost cfg mods t = calculate_predicted_chapter_cost cfg [] t)
    ∧ (∀ cfg t u, calculate_actual_chapter_cost cfg mods t u = calculate_actual_chapter_cost cfg [] t u)
    ∧ (∀ cfg, calculate_image_cost cfg mods = calculate_image_cost cfg [])
    ∧ (∀ cfg, (calculate_image_cost cfg mods).modifier = 2) := by
  have hm : ∀ a, modifierFor mods a = 2 := by
    intro a
    unfold modifierFor
    rw [h]
  refine ⟨hm, ?_, ?_, ?_, ?_, ?_, ?_, ?_, ?_, ?_, ?_, ?_, ?_⟩
  · intro cfg t
    simp only [calculate_predicted_meta_cost, hm]
    rfl
  · intro cfg t u
    simp only [calculate_actual_meta_cost, hm]
    rfl
  · intro cfg t c
    simp only [calculate_predicted_summaries_cost, hm]
    rfl
  · intro cfg t u
    simp only [calculate_actual_summaries_cost, hm]
    rfl
  · intro cfg t
    simp only [calculate_predicted_story_arcs_cost, hm]
    rfl
  · intro cfg t u
    simp only [calculate_actual_story_arcs_cost, hm]
    rfl
  · intro cfg t
    simp only [calculate_predicted_chapter_guide_cost, hm]
    rfl
  · intro cfg t u
    simp only [calculate_actual_chapter_guide_cost, hm]
    rfl
  · intro cfg t
    simp only [calculate_predicted_chapter_cost, hm]
    rfl
  · intro cfg t u
    simp only [calculate_actual_chapter_cost, hm]
    rfl
  · intro cfg
    simp only [calculate_image_cost, hm]
    rfl
  · intro cfg
    simp only [calculate_image_cost, hm]

/-- **C9 witness**: the empty modifier table has no row for any action,
and the fallback gives multiplier 2 on it. -/
theorem modifier_absent_fallback_two_witness :
    modifierFor ([] : ModifierTable) "meta_input" = 2
    ∧ (calculate_image_cost cfgA ([] : ModifierTable)).modifier = 2 := by
  have happ := modifier_absent_fallback_two ([] : ModifierTable) (fun a => rfl)
  exact ⟨happ.1 "meta_input", (happ.2.2.2.2.2.2.2.2.2.2.2.2) cfgA⟩

/-- A state in which user 1 already holds the generation lock. -/
def stLocked : SysState := { stBase with locks := [1] }

/-- A state in which user 1 has only 5 text credits. -/
def stPoor : SysState := { stBase with user := { userA with text_credits := 5 } }

/-- **C1**: every worker task — image, metadata, story arcs, summaries,
chapter guide, chapter content — deletes the user's generation lock on
every outcome of its try block (the release sits in the `finally`
block), so the lock is absent when the worker finishes. -/
theorem worker_always_releases_lock :
    (∀ o user_id task_id (c : ℚ) st, user_id ∉ (generate_image_task o user_id task_id c st).locks)
    ∧ (∀ cfg mods o se user_id task_id pit st,
        user_id ∉ (generate_meta_task cfg mods o se user_id task_id pit st).locks)
    ∧ (∀ cfg mods o se user_id task_id pit st,
        user_id ∉ (generate_story_arcs_task cfg mods o se user_id task_id pit st).locks)
    ∧ (∀ cfg mods o user_id task_id pit st,
        user_id ∉ (generate_summaries_task cfg mods o user_id task_id pit st).locks)
    ∧ (∀ cfg mods o user_id task_id pit st,
        user_id ∉ (generate_chapter_guide_task cfg mods o user_id task_id pit st).locks)
    ∧ (∀ cfg mods o cn user_id task_id pit st,
        user_id ∉ (generate_chapter_task cfg mods o cn user_id task_id pit st).locks) := by
  refine ⟨fun o u t c st => clear_lock_not_mem u _,
    fun cfg mods o se u t pit st => clear_lock_not_mem u _,
    fun cfg mods o se u t pit st => clear_lock_not_mem u _,
    fun cfg mods o u t pit st => clear_lock_not_mem u _,
    fun cfg mods o u t pit st => clear_lock_not_mem u _,
    fun cfg mods o cn u t pit st => clear_lock_not_mem u _⟩

/-- **C4**: the image worker's cleanup deletes the user's generation lock
on every run even though neither image dispatch endpoint ever acquires a
lock (their lock stores are returned untouched on every path) — so an
image job finishing while a text-mutating job of the same user is in
flight removes that job's lock. -/
theorem image_worker_deletes_text_lock :
    (∀ o user_id task_id (c : ℚ) st, user_id ∈ st.locks →
      user_id ∉ (generate_image_task o user_id task_id c st).locks)
    ∧ (∀ st se (p : ℚ) tid, (api_generate_cover_image st se p tid).2.locks = st.locks)
    ∧ (∀ st ce (p : ℚ) tid, (api_generate_chapter_image st ce p tid).2.locks = st.locks) := by
  refine ⟨fun o u t c st _ => clear_lock_not_mem u _, ?_, ?_⟩
  · intro st se p tid
    unfold api_generate_cover_image
    repeat' split
    all_goals rfl
  · intro st ce p tid
    unfold api_generate_chapter_image
    repeat' split
    all_goals rfl

/-- **C4 witness**: user 1 holds the lock (a text job in flight); the
image worker finishes and the lock is gone. -/
theorem image_worker_deletes_text_lock_witness :
    1 ∈ stLocked.locks
    ∧ 1 ∉ (generate_image_task (.success "stories/1/cover.jpg") 1 5 4 stLocked).locks :=
  ⟨by decide, image_worker_deletes_text_lock.1 (.success "stories/1/cover.jpg") 1 5 4 stLocked (by decide)⟩

/-- **C2 counterexample**: user 1 already holds the generation lock, yet
the story-arcs dispatcher — a kind the claim says must acquire the lock
and reject when acquisition fails — returns "queued" and creates a job
row: it never attempts to acquire the lock. -/
theorem c2_arcs_dispatch_ignores_lock_counterexample :
    stLocked.user.id ∈ stLocked.locks
    ∧ (api_generate_arcs stLocked true 5 7).1 = .queued 7
    ∧ (api_generate_arcs stLocked true 5 7).2.logs.length = stLocked.logs.length + 1 := by
  refine ⟨?_, ?_, ?_⟩ <;> decide

/-- **C2 (amended)**: only the chapter-summaries, chapter-content and
generate-all-chapters dispatchers attempt to acquire the generation lock
before enqueuing — when the lock is already held they return the
"already in progress" error with the state unchanged (no job row) — while
the story-arcs and chapter-guide dispatchers never touch the lock
store. -/
theorem lock_acquisition_by_dispatch_kind :
    (∀ st se (p : ℤ) tid, is_last_generation_and_negative_creds st .summaries = false →
      se = true → st.user.id ∈ st.locks →
      api_generate_summaries st se p tid = (.errInProgress, st))
    ∧ (∀ st se cf (p : ℤ) tid, is_last_generation_and_negative_creds st .chapter = false →
      se = true → st.user.id ∈ st.locks →
      api_generate_chapter st se cf p tid = (.errInProgress, st))
    ∧ (∀ st se (p : ℤ) preds tids, is_last_generation_and_negative_creds st .chapter = false →
      se = true → st.user.id ∈ st.locks →
      api_generate_all_chapters st se p preds tids = (.errInProgress, st))
    ∧ (∀ st se (p : ℤ) tid, (api_generate_arcs st se p tid).2.locks = st.locks)
    ∧ (∀ st se (p : ℤ) tid, (api_generate_chapter_guide st se p tid).2.locks = st.locks) := by
  refine ⟨?_, ?_, ?_, ?_, ?_⟩
  · intro st se p tid hg hs hl
    subst hs
    simp [api_generate_summaries, hg, set_user_generation_lock, hl]
  · intro st se cf p tid hg hs hl
    subst hs
    simp [api_generate_chapter, hg, set_user_generation_lock, hl]
  · intro st se p preds tids hg hs hl
    subst hs
    simp [api_generate_all_chapters, hg, set_user_generation_lock, hl]
  · intro st se p tid
    unfold api_generate_arcs
    repeat' split
    all_goals rfl
  · intro st se p tid
    unfold api_generate_chapter_guide
    repeat' split
    all_goals rfl

/-- **C2 witness**: with the lock held by user 1 the summaries dispatcher
rejects with "already in progress" and leaves the state unchanged. -/
theorem lock_acquisition_by_dispatch_kind_witness :
    is_last_generation_and_negative_creds stLocked .summaries = false
    ∧ stLocked.user.id ∈ stLocked.locks
    ∧ api_generate_summaries stLocked true 5 7 = (.errInProgress, stLocked) :=
  ⟨by decide, by decide,
    lock_acquisition_by_dispatch_kind.1 stLocked true 5 7 (by decide) rfl (by decide)⟩

/-- **C3 counterexample**: the summaries dispatcher, rejecting for
insufficient credits (5 available, 8 required), returns the error with
the required and available amounts and creates no job row — but the lock
it acquired during the request is still held after the rejection,
contradicting "no lock is held after the rejection". -/
theorem c3_summaries_reject_orphans_lock_counterexample :
    stPoor.user.id ∉ stPoor.locks
    ∧ (api_generate_summaries stPoor true 8 7).1 = .errNotEnough 8 5
    ∧ (api_generate_summaries stPoor true 8 7).2.logs = stPoor.logs
    ∧ stPoor.user.id ∈ (api_generate_summaries stPoor true 8 7).2.locks := by
  refine ⟨?_, ?_, ?_, ?_⟩ <;> decide

/-- **C3 (amended)**: a dispatch rejected for insufficient credits
creates no job row; the text-kind rejections carry the required and
available amounts (the image rejection carries only the required
amount); the chapter-content and all-chapters dispatchers release the
lock acquired during the request before returning, but the summaries
dispatcher returns with its freshly acquired lock still held. -/
theorem insufficient_credit_rejection_effects :
    (∀ st se cf (p : ℤ) tid, is_last_generation_and_negative_creds st .chapter = false →
      se = true → cf = true → st.user.id ∉ st.locks →
      can_spend_credits st.user .text (p : ℚ) = false →
      (api_generate_chapter st se cf p tid).1 = .errNotEnough (p : ℚ) st.user.text_credits
      ∧ (api_generate_chapter st se cf p tid).2.logs = st.logs
      ∧ st.user.id ∉ (api_generate_chapter st se cf p tid).2.locks)
    ∧ (∀ st se (p : ℤ) preds tids, is_last_generation_and_negative_creds st .chapter = false →
      se = true → st.user.id ∉ st.locks →
      can_spend_credits st.user .text (p : ℚ) = false →
      (api_generate_all_chapters st se p preds tids).1 = .errNotEnough (p : ℚ) st.user.text_credits
      ∧ (api_generate_all_chapters st se p preds tids).2.logs = st.logs
      ∧ st.user.id ∉ (api_generate_all_chapters st se p preds tids).2.locks)
    ∧ (∀ st se (p : ℤ) tid, is_last_generation_and_negative_creds st .summaries = false →
      se = true → st.user.id ∉ st.locks →
      can_spend_credits st.user .text (p : ℚ) = false →
      (api_generate_summaries st se p tid).1 = .errNotEnough (p : ℚ) st.user.text_credits
      ∧ (api_generate_summaries st se p tid).2.logs = st.logs
      ∧ st.user.id ∈ (api_generate_summaries st se p tid).2.locks)
    ∧ (∀ st se (p : ℚ) tid, is_last_generation_and_negative_creds st .image = false →
      se = true → can_spend_credits st.user .image p = false →
      api_generate_cover_image st se p tid = (.errNotEnoughReq p, st)) := by
  refine ⟨?_, ?_, ?_, ?_⟩
  · intro st se cf p tid hg hs hcf hl hc
    subst hs
    subst hcf
    have hset : set_user_generation_lock st.user.id st
        = (true, { st with locks := st.user.id :: st.locks }) := by
      simp [set_user_generation_lock, hl]
    refine ⟨?_, ?_, ?_⟩
    · simp [api_generate_chapter, hg, hset, hc]
    · simp [api_generate_chapter, hg, hset, hc, clear_user_generation_lock]
    · simp [api_generate_chapter, hg, hset, hc, clear_user_generation_lock, List.mem_filter]
  · intro st se p preds tids hg hs hl hc
    subst hs
    have hset : set_user_generation_lock st.user.id st
        = (true, { st with locks := st.user.id :: st.locks }) := by
      simp [set_user_generation_lock, hl]
    refine ⟨?_, ?_, ?_⟩
    · simp [api_generate_all_chapters, hg, hset, hc]
    · simp [api_generate_all_chapters, hg, hset, hc, clear_user_generation_lock]
    · simp [api_generate_all_chapters, hg, hset, hc, clear_user_generation_lock, List.mem_filter]
  · intro st se p tid hg hs hl hc
    subst hs
    have hset : set_user_generation_lock st.user.id st
        = (true, { st with locks := st.user.id :: st.locks }) := by
      simp [set_user_generation_lock, hl]
    refine ⟨?_, ?_, ?_⟩
    · simp [api_generate_summaries, hg, hset, hc]
    · simp [api_generate_summaries, hg, hset, hc]
    · simp [api_generate_summaries, hg, hset, hc]
  · intro st se p tid hg hs hc
    subst hs
    simp [api_generate_cover_image, hg, hc]

/-- **C3 witness**: the chapter-content dispatcher at 5 available and 8
required credits rejects with both amounts, creates no job row, and no
lock is held afterwards. -/
theorem insufficient_credit_rejection_effects_witness :
    (api_generate_chapter stPoor true true 8 7).1 = .errNotEnough 8 stPoor.user.text_credits
    ∧ (api_generate_chapter stPoor true true 8 7).2.logs = stPoor.logs
    ∧ stPoor.user.id ∉ (api_generate_chapter stPoor true true 8 7).2.locks :=
  insufficient_credit_rejection_effects.1 stPoor true true 8 7
    (by decide) rfl rfl (by decide) (by decide)

/-- A state with one pending metadata job (task 5) for user 1 holding
the lock. -/
def stMetaPending : SysState :=
  { stBase with locks := [1], logs := [newLog 1 5 .meta 10] }

/-- **C6 counterexample**: on a structurally valid but empty metadata
result the worker returns early — nothing is persisted, no debit, the
lock is released — but the `GenerationLog` row is left `pending`, not
marked `failed` as the claim states. -/
theorem c6_empty_meta_job_left_pending_counterexample :
    (generate_meta_task cfgA [] (.parsed [] [] 0) true 1 5 100 stMetaPending).logs
      = stMetaPending.logs
    ∧ ((generate_meta_task cfgA [] (.parsed [] [] 0) true 1 5 100 stMetaPending).logs.find?
        (isTaskLog 5 1 .meta)).map (fun e => e.status) = some .pending := by
  refine ⟨?_, ?_⟩ <;> decide

/-- **C6 (amended)**: on a structurally valid but empty metadata result
(zero characters and zero locations) the worker persists nothing, debits
nothing, releases the generation lock, and leaves the `GenerationLog`
table untouched — the job stays `pending` (it is not marked succeeded,
but not marked failed either). -/
theorem empty_meta_result_effects (cfg : TokenCostConfig) (mods : ModifierTable)
    (se : Bool) (user_id task_id : Nat) (pit outTok : ℤ) (st : SysState) :
    (generate_meta_task cfg mods (.parsed [] [] outTok) se user_id task_id pit st).logs = st.logs
    ∧ (generate_meta_task cfg mods (.parsed [] [] outTok) se user_id task_id pit st).user = st.user
    ∧ (generate_meta_task cfg mods (.parsed [] [] outTok) se user_id task_id pit st).characters
        = st.characters
    ∧ (generate_meta_task cfg mods (.parsed [] [] outTok) se user_id task_id pit st).locations
        = st.locations
    ∧ user_id ∉ (generate_meta_task cfg mods (.parsed [] [] outTok) se user_id task_id pit st).locks := by
  refine ⟨?_, ?_, ?_, ?_, ?_⟩ <;>
    simp [generate_meta_task, clear_user_generation_lock, List.mem_filter]

/-- **C7 counterexample**: the cover-image dispatcher creates its
`GenerationLog` row with `status = pending` and `real_cost` already
filled with the prediction, so `real_cost` is set while the job is not
terminal, contradicting the claimed "if and only if". -/
theorem c7_cover_dispatch_sets_real_cost_while_pending_counterexample :
    ((api_generate_cover_image stBase true 8 5).2.logs.head?).map
      (fun e => (e.status, e.real_cost)) = some (.pending, some 8) := by
  decide

/-- Log table of the metadata worker after an LLM-call exception. -/
lemma meta_logs_llmError (cfg : TokenCostConfig) (mods : ModifierTable) (se : Bool)
    (uid tid : Nat) (pit : ℤ) (st : SysState) (m : String) :
    (generate_meta_task cfg mods (.llmError m) se uid tid pit st).logs
    = updateFirstLog (isTaskLog tid uid .meta) (markFailed m) st.logs := rfl

/-- Log table of the metadata worker after a post-parse exception. -/
lemma meta_logs_lateError (cfg : TokenCostConfig) (mods : ModifierTable) (se : Bool)
    (uid tid : Nat) (pit : ℤ) (st : SysState) (m : String) :
    (generate_meta_task cfg mods (.lateError m) se uid tid pit st).logs
    = updateFirstLog (isTaskLog tid uid .meta) (markFailed m) st.logs := rfl

/-- Log table of the metadata worker on the empty-result early return:
untouched. -/
lemma meta_logs_parsed_empty (cfg : TokenCostConfig) (mods : ModifierTable) (se : Bool)
    (uid tid : Nat) (pit : ℤ) (st : SysState)
    (chars : List CharacterRec) (locs : List LocationRec) (outTok : ℤ)
    (hemp : locs.length = 0 ∧ chars.length = 0) :
    (generate_meta_task cfg mods (.parsed chars locs outTok) se uid tid pit st).logs = st.logs := by
  simp only [generate_meta_task]
  rw [if_pos hemp]
  rfl

/-- Log table of the metadata worker on a non-empty parse with the story
present: the matching row becomes succeeded with `real_cost` set. -/
lemma meta_logs_parsed_story (cfg : TokenCostConfig) (mods : ModifierTable)
    (uid tid : Nat) (pit : ℤ) (st : SysState)
    (chars : List CharacterRec) (locs : List LocationRec) (outTok : ℤ)
    (hemp : ¬ (locs.length = 0 ∧ chars.length = 0)) :
    (generate_meta_task cfg mods (.parsed chars locs outTok) true uid tid pit st).logs
    = updateFirstLog (isTaskLog tid uid .meta) (markSucceeded ((calculate_actual_meta_cost cfg mods pit outTok).total_actual_credit_cost : ℚ) (calculate_actual_meta_cost cfg mods pit outTok).input_tokens (calculate_actual_meta_cost cfg mods pit outTok).output_tokens (calculate_actual_meta_cost cfg mods pit outTok).model) st.logs := by
  simp only [generate_meta_task]
  rw [if_neg hemp]
  rfl

/-- Log table of the metadata worker on a non-empty parse with the story
row missing: the succeeded update is followed by the failed update from
the crashed emission block. -/
lemma meta_logs_parsed_no_story (cfg : TokenCostConfig) (mods : ModifierTable)
    (uid tid : Nat) (pit : ℤ) (st : SysState)
    (chars : List CharacterRec) (locs : List LocationRec) (outTok : ℤ)
    (hemp : ¬ (locs.length = 0 ∧ chars.length = 0)) :
    (generate_meta_task cfg mods (.parsed chars locs outTok) false uid tid pit st).logs
    = updateFirstLog (isTaskLog tid uid .meta) (markFailed "AttributeError: NoneType has no attribute id") (updateFirstLog (isTaskLog tid uid .meta) (markSucceeded ((calculate_actual_meta_cost cfg mods pit outTok).total_actual_credit_cost : ℚ) (calculate_actual_meta_cost cfg mods pit outTok).input_tokens (calculate_actual_meta_cost cfg mods pit outTok).output_tokens (calculate_actual_meta_cost cfg mods pit outTok).model) st.logs) := by
  simp only [generate_meta_task]
  rw [if_neg hemp]
  rfl

/-- **C7 (amended)**: no worker outcome moves a `GenerationLog` row back
to `pending` from a terminal state, but `real_cost` is not set iff the
status is terminal: a metadata job dispatched `pending` with null
`real_cost` and run against an existing story ends with `real_cost` set
exactly when it ends `succeeded` (its failure and still-pending outcomes
leave `real_cost` null); when the story row is missing mid-run the job
instead ends `failed` with `real_cost` set (the debit and the succeeded
update land before the emission block raises and the `except` branch
re-marks the row failed); and the cover-image dispatcher already sets
`real_cost` at creation while the row is still `pending`. -/
theorem real_cost_and_status_lifecycle :
    (∀ cfg mods o user_id task_id pit st e,
      st.logs.find? (isTaskLog task_id user_id .meta) = some e →
      e.status = .pending → e.real_cost = none →
      ∃ e', (generate_meta_task cfg mods o true user_id task_id pit st).logs.find?
              (isTaskLog task_id user_id .meta) = some e'
            ∧ (e'.real_cost ≠ none ↔ e'.status = .succeeded))
    ∧ (∀ cfg mods o se user_id task_id pit st e e',
      st.logs.find? (isTaskLog task_id user_id .meta) = some e →
      (generate_meta_task cfg mods o se user_id task_id pit st).logs.find?
        (isTaskLog task_id user_id .meta) = some e' →
      e'.status = .pending → e.status = .pending)
    ∧ (∀ st se (p : ℚ) tid, is_last_generation_and_negative_creds st .image = false →
      se = true → can_spend_credits st.user .image p = true →
      ((api_generate_cover_image st se p tid).2.logs.head?).map
        (fun e => (e.status, e.real_cost)) = some (.pending, some p))
    ∧ (∀ cfg mods chars locs outTok user_id task_id pit st e,
      st.logs.find? (isTaskLog task_id user_id .meta) = some e →
      ¬ (locs.length = 0 ∧ chars.length = 0) →
      ∃ e', (generate_meta_task cfg mods (.parsed chars locs outTok) false user_id task_id pit st).logs.find?
              (isTaskLog task_id user_id .meta) = some e'
            ∧ e'.status = .failed
            ∧ e'.real_cost = some ((calculate_actual_meta_cost cfg mods pit outTok).total_actual_credit_cost : ℚ)) := by
  refine ⟨?_, ?_, ?_, ?_⟩
  · intro cfg mods o user_id task_id pit st e hfind hst hrc
    cases o with
    | llmError m =>
      refine ⟨markFailed m e, ?_, ?_⟩
      · rw [meta_logs_llmError cfg mods true user_id task_id pit st m,
          find?_updateFirstLog (isTaskLog task_id user_id .meta) (markFailed m) (fun _ => rfl), hfind]
        rfl
      · simp [markFailed, hrc]
    | lateError m =>
      refine ⟨markFailed m e, ?_, ?_⟩
      · rw [meta_logs_lateError cfg mods true user_id task_id pit st m,
          find?_updateFirstLog (isTaskLog task_id user_id .meta) (markFailed m) (fun _ => rfl), hfind]
        rfl
      · simp [markFailed, hrc]
    | parsed chars locs outTok =>
      by_cases hemp : locs.length = 0 ∧ chars.length = 0
      · refine ⟨e, ?_, ?_⟩
        · rw [meta_logs_parsed_empty cfg mods true user_id task_id pit st chars locs outTok hemp, hfind]
        · simp [hrc, hst]
      · refine ⟨markSucceeded ((calculate_actual_meta_cost cfg mods pit outTok).total_actual_credit_cost : ℚ) (calculate_actual_meta_cost cfg mods pit outTok).input_tokens (calculate_actual_meta_cost cfg mods pit outTok).output_tokens (calculate_actual_meta_cost cfg mods pit outTok).model e, ?_, ?_⟩
        · rw [meta_logs_parsed_story cfg mods user_id task_id pit st chars locs outTok hemp,
            find?_updateFirstLog (isTaskLog task_id user_id .meta) (markSucceeded ((calculate_actual_meta_cost cfg mods pit outTok).total_actual_credit_cost : ℚ) (calculate_actual_meta_cost cfg mods pit outTok).input_tokens (calculate_actual_meta_cost cfg mods pit outTok).output_tokens (calculate_actual_meta_cost cfg mods pit outTok).model) (fun _ => rfl), hfind]
          rfl
        · simp [markSucceeded]
  · intro cfg mods o se user_id task_id pit st e e' hfind hfind' hst'
    cases o with
    | llmError m =>
      rw [meta_logs_llmError cfg mods se user_id task_id pit st m,
        find?_updateFirstLog (isTaskLog task_id user_id .meta) (markFailed m) (fun _ => rfl), hfind, Option.map_some'] at hfind'
      cases hfind'
      cases hst'
    | lateError m =>
      rw [meta_logs_lateError cfg mods se user_id task_id pit st m,
        find?_updateFirstLog (isTaskLog task_id user_id .meta) (markFailed m) (fun _ => rfl), hfind, Option.map_some'] at hfind'
      cases hfind'
      cases hst'
    | parsed chars locs outTok =>
      by_cases hemp : locs.length = 0 ∧ chars.length = 0
      · rw [meta_logs_parsed_empty cfg mods se user_id task_id pit st chars locs outTok hemp,
          hfind] at hfind'
        cases hfind'
        exact hst'
      · cases se with
        | true =>
          rw [meta_logs_parsed_story cfg mods user_id task_id pit st chars locs outTok hemp,
            find?_updateFirstLog (isTaskLog task_id user_id .meta) (markSucceeded ((calculate_actual_meta_cost cfg mods pit outTok).total_actual_credit_cost : ℚ) (calculate_actual_meta_cost cfg mods pit outTok).input_tokens (calculate_actual_meta_cost cfg mods pit outTok).output_tokens (calculate_actual_meta_cost cfg mods pit outTok).model) (fun _ => rfl), hfind, Option.map_some'] at hfind'
          cases hfind'
          cases hst'
        | false =>
          rw [meta_logs_parsed_no_story cfg mods user_id task_id pit st chars locs outTok hemp,
            find?_updateFirstLog (isTaskLog task_id user_id .meta) (markFailed "AttributeError: NoneType has no attribute id") (fun _ => rfl),
            find?_updateFirstLog (isTaskLog task_id user_id .meta) (markSucceeded ((calculate_actual_meta_cost cfg mods pit outTok).total_actual_credit_cost : ℚ) (calculate_actual_meta_cost cfg mods pit outTok).input_tokens (calculate_actual_meta_cost cfg mods pit outTok).output_tokens (calculate_actual_meta_cost cfg mods pit outTok).model) (fun _ => rfl), hfind, Option.map_some', Option.map_some'] at hfind'
          cases hfind'
          cases hst'
  · intro st se p tid hg hs hc
    subst hs
    simp [api_generate_cover_image, hg, hc, newLog]
  · intro cfg mods chars locs outTok user_id task_id pit st e hfind hemp
    refine ⟨markFailed "AttributeError: NoneType has no attribute id" (markSucceeded ((calculate_actual_meta_cost cfg mods pit outTok).total_actual_credit_cost : ℚ) (calculate_actual_meta_cost cfg mods pit outTok).input_tokens (calculate_actual_meta_cost cfg mods pit outTok).output_tokens (calculate_actual_meta_cost cfg mods pit outTok).model e), ?_, rfl, rfl⟩
    rw [meta_logs_parsed_no_story cfg mods user_id task_id pit st chars locs outTok hemp,
      find?_updateFirstLog (isTaskLog task_id user_id .meta) (markFailed "AttributeError: NoneType has no attribute id") (fun _ => rfl),
      find?_updateFirstLog (isTaskLog task_id user_id .meta) (markSucceeded ((calculate_actual_meta_cost cfg mods pit outTok).total_actual_credit_cost : ℚ) (calculate_actual_meta_cost cfg mods pit outTok).input_tokens (calculate_actual_meta_cost cfg mods pit outTok).output_tokens (calculate_actual_meta_cost cfg mods pit outTok).model) (fun _ => rfl), hfind]
    rfl

/-- **C7 witness**: a failing metadata run on a pending job leaves
`real_cost` null and the status non-succeeded; a cover-image dispatch
creates a pending row with `real_cost` already set; and a metadata run
with a non-empty parse but a missing story row ends failed with
`real_cost` set. -/
theorem real_cost_and_status_lifecycle_witness :
    (∃ e', (generate_meta_task cfgA [] (.llmError "boom") true 1 5 100 stMetaPending).logs.find?
            (isTaskLog 5 1 .meta) = some e'
          ∧ (e'.real_cost ≠ none ↔ e'.status = .succeeded))
    ∧ ((api_generate_cover_image stBase true 8 5).2.logs.head?).map
        (fun e => (e.status, e.real_cost)) = some (.pending, some 8)
    ∧ (∃ e', (generate_meta_task cfgA []
            (.parsed [{ name := "Ann", description := "d", example_dialogue := "x" }] [] 0)
            false 1 5 100 stMetaPending).logs.find? (isTaskLog 5 1 .meta) = some e'
          ∧ e'.status = .failed
          ∧ e'.real_cost = some ((calculate_actual_meta_cost cfgA [] 100 0).total_actual_credit_cost : ℚ)) :=
  ⟨real_cost_and_status_lifecycle.1 cfgA [] (.llmError "boom") 1 5 100 stMetaPending
      (newLog 1 5 .meta 10) (by decide) (by decide) (by decide),
   real_cost_and_status_lifecycle.2.2.1 stBase true 8 5 (by decide) rfl (by decide),
   real_cost_and_status_lifecycle.2.2.2 cfgA []
      [{ name := "Ann", description := "d", example_dialogue := "x" }] [] 0 1 5 100 stMetaPending
      (newLog 1 5 .meta 10) (by decide) (by decide)⟩

/-- The credit pool consulted by the overdraft guard for a kind. -/
def creditPool (st : SysState) (t : GenKind) : ℚ :=
  match t with
  | .image => st.user.image_credits
  | _ => st.user.text_credits

/-- **C8**: a user whose most recent job is of kind `K` with the pool for
`K` at ≤ 0 trips the guard and every dispatcher of kind `K` rejects with
the guard error and no state change; once the pool is positive the guard
is clear again; and the guard never trips for a kind different from the
most recent job's kind. -/
theorem overdraft_guard_blocks_same_kind :
    (∀ st K e, st.logs.find? (fun x => x.user_id == st.user.id) = some e →
      e.generation_type = K → creditPool st K ≤ 0 →
      is_last_generation_and_negative_creds st K = true)
    ∧ (∀ st K e, st.logs.find? (fun x => x.user_id == st.user.id) = some e →
      e.generation_type = K → 0 < creditPool st K →
      is_last_generation_and_negative_creds st K = false)
    ∧ (∀ st K' e, st.logs.find? (fun x => x.user_id == st.user.id) = some e →
      e.generation_type ≠ K' →
      is_last_generation_and_negative_creds st K' = false)
    ∧ (∀ st se (p : ℤ) tid, is_last_generation_and_negative_creds st .meta = true →
      api_generate_meta st se p tid = (.errGuard, st))
    ∧ (∀ st se (p : ℤ) tid, is_last_generation_and_negative_creds st .story_arcs = true →
      api_generate_arcs st se p tid = (.errGuard, st))
    ∧ (∀ st se (p : ℤ) tid, is_last_generation_and_negative_creds st .summaries = true →
      api_generate_summaries st se p tid = (.errGuard, st))
    ∧ (∀ st se (p : ℤ) tid, is_last_generation_and_negative_creds st .chapter_guide = true →
      api_generate_chapter_guide st se p tid = (.errGuard, st))
    ∧ (∀ st se cf (p : ℤ) tid, is_last_generation_and_negative_creds st .chapter = true →
      api_generate_chapter st se cf p tid = (.errGuard, st))
    ∧ (∀ st se (p : ℤ) preds tids, is_last_generation_and_negative_creds st .chapter = true →
      api_generate_all_chapters st se p preds tids = (.errGuard, st))
    ∧ (∀ st se (p : ℚ) tid, is_last_generation_and_negative_creds st .image = true →
      api_generate_cover_image st se p tid = (.errGuard, st))
    ∧ (∀ st se (p : ℚ) tid, is_last_generation_and_negative_creds st .image = true →
      api_generate_chapter_image st se p tid = (.errGuard, st)) := by
  refine ⟨?_, ?_, ?_, ?_, ?_, ?_, ?_, ?_, ?_, ?_, ?_⟩
  · intro st K e hf ht hneg
    subst ht
    unfold is_last_generation_and_negative_creds
    rw [hf]
    simp only [ne_eq, not_true_eq_false, if_neg (fun h : e.generation_type ≠ e.generation_type => h rfl)]
    revert hneg
    cases e.generation_type <;> intro hneg <;> exact decide_eq_true hneg
  · intro st K e hf ht hpos
    subst ht
    unfold is_last_generation_and_negative_creds
    rw [hf]
    simp only [ne_eq, not_true_eq_false, if_neg (fun h : e.generation_type ≠ e.generation_type => h rfl)]
    revert hpos
    cases e.generation_type <;> intro hpos <;> exact decide_eq_false (not_le.mpr hpos)
  · intro st K' e hf ht
    unfold is_last_generation_and_negative_creds
    rw [hf]
    simp [ht]
  · intro st se p tid h
    simp [api_generate_meta, h]
  · intro st se p tid h
    simp [api_generate_arcs, h]
  · intro st se p tid h
    simp [api_generate_summaries, h]
  · intro st se p tid h
    simp [api_generate_chapter_guide, h]
  · intro st se cf p tid h
    simp [api_generate_chapter, h]
  · intro st se p preds tids h
    simp [api_generate_all_chapters, h]
  · intro st se p tid h
    simp [api_generate_cover_image, h]
  · intro st se p tid h
    simp [api_generate_chapter_image, h]

/-- A state whose most recent job is metadata and whose text pool is
overdrawn. -/
def stOverdrawn : SysState :=
  { stBase with
    logs := [newLog 1 5 .meta 10]
    user := { userA with text_credits := mkRat (-3) 1 } }

/-- **C8 witness**: with the last job of kind meta and -3 text credits,
the guard trips for meta, the meta dispatcher rejects with no state
change, and the guard stays clear for a different kind. -/
theorem overdraft_guard_blocks_same_kind_witness :
    is_last_generation_and_negative_creds stOverdrawn .meta = true
    ∧ api_generate_meta stOverdrawn true 5 7 = (.errGuard, stOverdrawn)
    ∧ is_last_generation_and_negative_creds stOverdrawn .story_arcs = false :=
  ⟨overdraft_guard_blocks_same_kind.1 stOverdrawn .meta (newLog 1 5 .meta 10)
      (by decide) rfl (by decide),
   (overdraft_guard_blocks_same_kind.2.2.2.1) stOverdrawn true 5 7
      (overdraft_guard_blocks_same_kind.1 stOverdrawn .meta (newLog 1 5 .meta 10)
        (by decide) rfl (by decide)),
   overdraft_guard_blocks_same_kind.2.2.1 stOverdrawn .story_arcs (newLog 1 5 .meta 10)
      (by decide) (by decide)⟩

end NovelApp
